import Mathlib

/-!
Shallow embedding of the self-healing operator (Go) for verification.

The repository holds three variants of the operator:
* the primary, cooldown-guarded operator (first half of the combined Go
  source), embedded in namespace `Operator`;
* a second, cooldown-free variant in the same combined source, whose
  translator has the `kubernetes_*` label fallbacks, embedded in
  namespace `OperatorB` (only its translator is needed);
* `src/operator/main.go`, embedded in namespace `MainGo` (translator and
  `scaleDeployment`, which dereferences `Spec.Replicas` with no nil check).

Modelling conventions:
* Go `map[string]string` label maps are association lists; `getLabel`
  mirrors Go map indexing (absent key yields the zero value `""`).
* Time is a `Nat` clock in seconds; `time.Since(last) < cooldownTime`
  becomes `now - last < cooldownTime` with truncated subtraction (for a
  monotone clock `last ≤ now` this is exact; for `last > now` Go's
  negative duration also compares below the window, matching truncation).
* The Kubernetes API (the external Cluster Mutation Client) is a record
  of response functions `K8sClient`; every call the Go code issues is
  recorded in an explicit `List K8sCall` trace, so "no mutation call
  occurs" is "the trace is empty".
* Fallible Go calls returning `error` become `Except String`.
* `int32` replica counts are `Int` values in the int32 range; the
  increments the code computes are wrapped through `wrap32`, exactly as
  Go `int32` addition wraps.
-/

/-- Go map indexing on a label map: absent key yields the zero value `""`. -/
def getLabel (ls : List (String × String)) (k : String) : String :=
  (ls.lookup k).getD ""

/-- Go map assignment `m[k] = v`, modelled on association lists up to
lookup equivalence: the new binding shadows and replaces any old one. -/
def setEntry {β : Type} (m : List (String × β)) (k : String) (v : β) :
    List (String × β) :=
  (k, v) :: m.filter (fun p => p.1 != k)

/-- One Alertmanager alert: label map, annotation map, status string. -/
structure Alert where
  labels : List (String × String)
  ann : List (String × String)
  status : String
deriving DecidableEq

/-- The webhook payload sent by Alertmanager. -/
structure WebhookMessage where
  alerts : List Alert
deriving DecidableEq

/-- Parsed action details from an alert (primary operator and the second
variant; `ns` stands for the Go field `Namespace`). -/
structure RecoveryAction where
  action : String
  pod : String
  ns : String
  app : String
  alertName : String
deriving DecidableEq

/-- A deployment as the operator sees it: name, desired replica count
(`Spec.Replicas`, a nullable pointer, hence `Option`), and the pod
template metadata map `Spec.Template.Annotations`. -/
structure Deployment where
  name : String
  replicas : Option Int
  templateAnn : List (String × String)
deriving DecidableEq

/-- One call issued against the Kubernetes API. -/
inductive K8sCall where
  | deletePod (ns pod : String)
  | listDeployments (ns selector : String)
  | updateDeployment (ns : String) (dep : Deployment)
  | getScale (ns name : String)
  | updateScale (ns name : String) (replicas : Int)
deriving DecidableEq

/-- The external Kubernetes API, as response functions. `getScale`
returns the scale subresource's current replica value (the Go code
overwrites it before writing back, so only success/failure matters). -/
structure K8sClient where
  deletePod : String → String → Except String Unit
  listDeployments : String → String → Except String (List Deployment)
  updateDeployment : String → Deployment → Except String Unit
  getScale : String → String → Except String Int
  updateScale : String → String → Int → Except String Unit

/-- Number of pod-deletion calls in a trace. -/
def countDeletePod (calls : List K8sCall) : Nat :=
  (calls.filter fun c =>
    match c with
    | K8sCall.deletePod _ _ => true
    | _ => false).length

/-- `true` iff the result is `ok` (Go: the returned `error` is nil). -/
def isOkResult (r : Except String Unit) : Bool :=
  match r with
  | .ok _ => true
  | .error _ => false

/-- Go `int32` arithmetic: reduce an integer to the int32 value it
denotes, wrapping modulo `2^32` into `[-2^31, 2^31)`. -/
def wrap32 (n : Int) : Int :=
  (n + 2147483648) % 4294967296 - 2147483648

namespace Operator

/-- `cooldownTime = 3 * time.Minute`, in seconds. -/
def cooldownTime : Nat := 180

/-- `isCoolingDown`: true iff the key was acted on within the window.
Absent key gives `ok = false`, hence `false`. -/
def isCoolingDown (lastAction : List (String × Nat)) (now : Nat)
    (key : String) : Bool :=
  match lastAction.lookup key with
  | none => false
  | some last => now - last < cooldownTime

/-- `recordCooldown`: `lastAction[key] = time.Now()`. -/
def recordCooldown (lastAction : List (String × Nat)) (now : Nat)
    (key : String) : List (String × Nat) :=
  setEntry lastAction key now

/-- `recordRecovery`: `recoveryCount[action]++` (a Go map increment reads
0 for an absent key). -/
def recordRecovery (counts : List (String × Nat)) (action : String) :
    List (String × Nat) :=
  setEntry counts action ((counts.lookup action).getD 0 + 1)

/-- `parseRecoveryAction` of the primary operator: nil unless the
`recovery_action` label is non-empty; namespace falls back to
`"default"`; pod, app and alertname are the raw label values. -/
def parseRecoveryAction (alert : Alert) : Option RecoveryAction :=
  let recoveryAction := getLabel alert.labels "recovery_action"
  if recoveryAction = "" then none
  else
    let ns0 := getLabel alert.labels "namespace"
    let ns1 := if ns0 = "" then "default" else ns0
    some { action := recoveryAction
           pod := getLabel alert.labels "pod"
           ns := ns1
           app := getLabel alert.labels "app"
           alertName := getLabel alert.labels "alertname" }

/-- `restartPod`: error with no API call when the pod name is empty;
otherwise one `deletePod` call, propagating its failure. -/
def restartPod (c : K8sClient) (action : RecoveryAction) :
    Except String Unit × List K8sCall :=
  if action.pod = "" then
    (.error "no pod name in alert labels for restart action", [])
  else
    match c.deletePod action.ns action.pod with
    | .error e =>
        (.error ("failed to delete pod " ++ action.ns ++ "/" ++ action.pod
          ++ ": " ++ e), [K8sCall.deletePod action.ns action.pod])
    | .ok _ => (.ok (), [K8sCall.deletePod action.ns action.pod])

/-- `redeployDeployment`: list by `app=<app>`, error on zero matches,
else set the rolling-restart annotation on the first match's pod
template and update it. -/
def redeployDeployment (c : K8sClient) (nowStr : String)
    (action : RecoveryAction) : Except String Unit × List K8sCall :=
  let sel := "app=" ++ action.app
  match c.listDeployments action.ns sel with
  | .error e =>
      (.error ("failed to list deployments: " ++ e),
       [K8sCall.listDeployments action.ns sel])
  | .ok [] =>
      (.error ("no deployment with label " ++ sel ++ " in namespace "
        ++ action.ns), [K8sCall.listDeployments action.ns sel])
  | .ok (dep :: _) =>
      let dep2 : Deployment :=
        { dep with templateAnn := (setEntry dep.templateAnn
            "kubectl.kubernetes.io/restartedAt" nowStr) }
      match c.updateDeployment action.ns dep2 with
      | .error e =>
          (.error ("failed to update deployment " ++ action.ns ++ "/"
            ++ dep.name ++ ": " ++ e),
           [K8sCall.listDeployments action.ns sel,
            K8sCall.updateDeployment action.ns dep2])
      | .ok _ =>
          (.ok (),
           [K8sCall.listDeployments action.ns sel,
            K8sCall.updateDeployment action.ns dep2])

/-- `scaleDeployment`: list by `app=<app>`, error on zero matches, else
read the first match's desired count (nil pointer treated as 1), and
write the `int32` sum `current + 1` (wrapping, as Go `int32` addition
does) through the scale subresource. -/
def scaleDeployment (c : K8sClient) (action : RecoveryAction) :
    Except String Unit × List K8sCall :=
  let sel := "app=" ++ action.app
  match c.listDeployments action.ns sel with
  | .error e =>
      (.error ("failed to list deployments: " ++ e),
       [K8sCall.listDeployments action.ns sel])
  | .ok [] =>
      (.error ("no deployment with label " ++ sel ++ " in namespace "
        ++ action.ns), [K8sCall.listDeployments action.ns sel])
  | .ok (dep :: _) =>
      let currentReplicas : Int := dep.replicas.getD 1
      let newReplicas : Int := wrap32 (currentReplicas + 1)
      match c.getScale action.ns dep.name with
      | .error e =>
          (.error ("failed to get scale for " ++ action.ns ++ "/"
            ++ dep.name ++ ": " ++ e),
           [K8sCall.listDeployments action.ns sel,
            K8sCall.getScale action.ns dep.name])
      | .ok _ =>
          match c.updateScale action.ns dep.name newReplicas with
          | .error e =>
              (.error ("failed to scale " ++ action.ns ++ "/" ++ dep.name
                ++ ": " ++ e),
               [K8sCall.listDeployments action.ns sel,
                K8sCall.getScale action.ns dep.name,
                K8sCall.updateScale action.ns dep.name newReplicas])
          | .ok _ =>
              (.ok (),
               [K8sCall.listDeployments action.ns sel,
                K8sCall.getScale action.ns dep.name,
                K8sCall.updateScale action.ns dep.name newReplicas])

/-- `executeRecoveryAction`: Go switch on the action kind; an
unrecognized kind is an immediate error with no API call. -/
def executeRecoveryAction (c : K8sClient) (nowStr : String)
    (action : RecoveryAction) : Except String Unit × List K8sCall :=
  if action.action = "restart" then restartPod c action
  else if action.action = "redeploy" then redeployDeployment c nowStr action
  else if action.action = "scale" then scaleDeployment c action
  else (.error ("unknown recovery action: " ++ action.action), [])

/-- The operator's process-lifetime shared state: the cooldown map
`lastAction` and the `recoveryCount` tallies. -/
structure OperatorState where
  lastAction : List (String × Nat)
  recoveryCount : List (String × Nat)
deriving DecidableEq

/-- The body of the per-alert loop in `handleWebhook`: skip non-firing
alerts, skip alerts without a recovery action, skip keys in cooldown;
otherwise execute, and on success record cooldown and the counter. -/
def processAlert (c : K8sClient) (now : Nat) (nowStr : String)
    (st : OperatorState) (alert : Alert) : OperatorState × List K8sCall :=
  if alert.status ≠ "firing" then (st, [])
  else
    match parseRecoveryAction alert with
    | none => (st, [])
    | some action =>
        let cooldownKey := action.ns ++ "/" ++ action.app
        if isCoolingDown st.lastAction now cooldownKey then (st, [])
        else
          match executeRecoveryAction c nowStr action with
          | (.error _, calls) => (st, calls)
          | (.ok _, calls) =>
              ({ lastAction := recordCooldown st.lastAction now cooldownKey
                 recoveryCount := recordRecovery st.recoveryCount
                   action.action }, calls)

/-- The alert loop of `handleWebhook`: strictly sequential, in array
order, threading the shared state and concatenating the call traces. -/
def processAlerts (c : K8sClient) (now : Nat) (nowStr : String) :
    OperatorState → List Alert → OperatorState × List K8sCall
  | st, [] => (st, [])
  | st, a :: rest =>
      let r1 := processAlert c now nowStr st a
      let r2 := processAlerts c now nowStr r1.1 rest
      (r2.1, r1.2 ++ r2.2)

/-- An inbound HTTP request: method, total body length in bytes, the
number of body bytes `json.Decode` consumes before returning (the whole
body when the first JSON value spans it — the normal Alertmanager
payload — and fewer when a complete value or a syntax error ends the
read earlier; never more than `bodyLen`), and the outcome of that
decode on the unlimited body. -/
structure HttpRequest where
  method : String
  bodyLen : Nat
  readLen : Nat
  bodyJson : Except String WebhookMessage

/-- An HTTP response: status code and body. -/
structure HttpResponse where
  status : Nat
  body : String
deriving DecidableEq

/-- `MaxBytesReader` cap: `1 << 20` bytes. -/
def maxRequestBody : Nat := 1048576

/-- Decoding through `http.MaxBytesReader(w, r.Body, 1<<20)`: the
limited reader errors as soon as more than the cap has been read, so
the decode fails with the reader's error exactly when the decoder must
read past the cap; otherwise the decode of the consumed prefix is
returned unchanged. In particular a body longer than the cap whose
first JSON value ends within it still decodes. -/
def decodeBody (r : HttpRequest) : Except String WebhookMessage :=
  if r.readLen ≤ maxRequestBody then r.bodyJson
  else .error "http: request body too large"

/-- `handleWebhook` of the primary operator: 405 on non-POST, 400 on
decode failure, otherwise process every alert sequentially and answer
200 `"OK"` regardless of per-alert outcomes. -/
def handleWebhook (c : K8sClient) (now : Nat) (nowStr : String)
    (st : OperatorState) (r : HttpRequest) :
    HttpResponse × OperatorState × List K8sCall :=
  if r.method ≠ "POST" then
    ({ status := 405, body := "Method not allowed" }, st, [])
  else
    match decodeBody r with
    | .error e => ({ status := 400, body := e }, st, [])
    | .ok msg =>
        let res := processAlerts c now nowStr st msg.alerts
        ({ status := 200, body := "OK" }, res.1, res.2)

end Operator

namespace OperatorB

/-- `parseRecoveryAction` of the second (cooldown-free) variant in the
combined source: pod falls back to `kubernetes_pod_name`, namespace to
`kubernetes_namespace` then `"default"`, app to `"unknown"`. -/
def parseRecoveryAction (alert : Alert) : Option RecoveryAction :=
  let recoveryAction := getLabel alert.labels "recovery_action"
  if recoveryAction = "" then none
  else
    let ns0 := getLabel alert.labels "namespace"
    let ns1 := if ns0 = "" then getLabel alert.labels "kubernetes_namespace"
      else ns0
    let ns2 := if ns1 = "" then "default" else ns1
    let pod0 := getLabel alert.labels "pod"
    let pod1 := if pod0 = "" then getLabel alert.labels "kubernetes_pod_name"
      else pod0
    let app0 := getLabel alert.labels "app"
    let app1 := if app0 = "" then "unknown" else app0
    some { action := recoveryAction
           pod := pod1
           ns := ns2
           app := app1
           alertName := getLabel alert.labels "alertname" }

end OperatorB

namespace MainGo

/-- Parsed action details in `src/operator/main.go` (its last field is
named `Reason`, filled from the `alertname` label). -/
structure RecoveryAction where
  action : String
  pod : String
  ns : String
  app : String
  reason : String
deriving DecidableEq

/-- `parseRecoveryAction` in `src/operator/main.go`: same fallback chain
as the second combined-source variant. -/
def parseRecoveryAction (alert : Alert) : Option RecoveryAction :=
  let recoveryAction := getLabel alert.labels "recovery_action"
  if recoveryAction = "" then none
  else
    let pod0 := getLabel alert.labels "pod"
    let pod1 := if pod0 = "" then getLabel alert.labels "kubernetes_pod_name"
      else pod0
    let ns0 := getLabel alert.labels "namespace"
    let ns1 := if ns0 = "" then getLabel alert.labels "kubernetes_namespace"
      else ns0
    let ns2 := if ns1 = "" then "default" else ns1
    let app0 := getLabel alert.labels "app"
    let app1 := if app0 = "" then "unknown" else app0
    some { action := recoveryAction
           pod := pod1
           ns := ns2
           app := app1
           reason := getLabel alert.labels "alertname" }

/-- Outcome of a `main.go` recovery function: `ok`/`failed` are the Go
`bool` returns; `panicked` marks a nil-pointer dereference (the Go
runtime panic aborts the function, issuing no further call). -/
inductive GoOutcome where
  | ok
  | failed
  | panicked
deriving DecidableEq

/-- `scaleDeployment` in `src/operator/main.go`: unlike the combined
source, it reads `*deployment.Spec.Replicas` with no nil check — a nil
`Replicas` pointer is a runtime panic, not a default of 1. The non-nil
increment is the same wrapping `int32` addition. -/
def scaleDeployment (c : K8sClient) (action : RecoveryAction) :
    GoOutcome × List K8sCall :=
  let sel := "app=" ++ action.app
  match c.listDeployments action.ns sel with
  | .error _ => (.failed, [K8sCall.listDeployments action.ns sel])
  | .ok [] => (.failed, [K8sCall.listDeployments action.ns sel])
  | .ok (dep :: _) =>
      match dep.replicas with
      | none => (.panicked, [K8sCall.listDeployments action.ns sel])
      | some currentReplicas =>
          let newReplicas := wrap32 (currentReplicas + 1)
          match c.getScale action.ns dep.name with
          | .error _ =>
              (.failed,
               [K8sCall.listDeployments action.ns sel,
                K8sCall.getScale action.ns dep.name])
          | .ok _ =>
              match c.updateScale action.ns dep.name newReplicas with
              | .error _ =>
                  (.failed,
                   [K8sCall.listDeployments action.ns sel,
                    K8sCall.getScale action.ns dep.name,
                    K8sCall.updateScale action.ns dep.name newReplicas])
              | .ok _ =>
                  (.ok,
                   [K8sCall.listDeployments action.ns sel,
                    K8sCall.getScale action.ns dep.name,
                    K8sCall.updateScale action.ns dep.name newReplicas])

end MainGo

/-! Concrete inputs used by witnesses and counterexamples. -/

/-- The label set of the spec's scenario alert. -/
def wLabelsRestart : List (String × String) :=
  [("alertname", "HighMemoryUsage"), ("recovery_action", "restart"),
   ("pod", "nodejs-app-abc"), ("namespace", "default"),
   ("app", "nodejs-app")]

/-- The spec's scenario alert, firing. -/
def wAlertRestart : Alert :=
  { labels := wLabelsRestart, ann := [], status := "firing" }

/-- The scenario alert with status `resolved`. -/
def wAlertResolved : Alert :=
  { labels := wLabelsRestart, ann := [], status := "resolved" }

/-- A firing restart alert with no `app` label. -/
def wAlertNoApp : Alert :=
  { labels := [("recovery_action", "restart"), ("pod", "p1"),
      ("namespace", "default")]
    ann := []
    status := "firing" }

/-- A firing alert carrying only the `kubernetes_*` fallback labels. -/
def wAlertK8sLabels : Alert :=
  { labels := [("recovery_action", "restart"),
      ("kubernetes_pod_name", "pod-xyz"),
      ("kubernetes_namespace", "prod"), ("alertname", "PodDown")]
    ann := []
    status := "firing" }

/-- A deployment with two desired replicas and no template metadata. -/
def wDep : Deployment :=
  { name := "nodejs-app", replicas := some 2, templateAnn := [] }

/-- A deployment whose `Spec.Replicas` pointer is nil. -/
def wDepNilReplicas : Deployment :=
  { name := "nodejs-app", replicas := none, templateAnn := [] }

/-- A cluster where every call succeeds and `wDep` is the only match. -/
def wClient : K8sClient :=
  { deletePod := fun _ _ => .ok ()
    listDeployments := fun _ _ => .ok [wDep]
    updateDeployment := fun _ _ => .ok ()
    getScale := fun _ _ => .ok 2
    updateScale := fun _ _ _ => .ok () }

/-- A cluster where every mutation fails. -/
def wClientFail : K8sClient :=
  { deletePod := fun _ _ => .error "boom"
    listDeployments := fun _ _ => .error "boom"
    updateDeployment := fun _ _ => .error "boom"
    getScale := fun _ _ => .error "boom"
    updateScale := fun _ _ _ => .error "boom" }

/-- A cluster whose only matching deployment has a nil replica count. -/
def wClientNilReplicas : K8sClient :=
  { deletePod := fun _ _ => .ok ()
    listDeployments := fun _ _ => .ok [wDepNilReplicas]
    updateDeployment := fun _ _ => .ok ()
    getScale := fun _ _ => .ok 1
    updateScale := fun _ _ _ => .ok () }

/-- Fresh operator state at process start: both maps empty. -/
def wState0 : Operator.OperatorState :=
  { lastAction := [], recoveryCount := [] }

/-- A well-formed POST delivery of the scenario alert. -/
def wReqRestart : Operator.HttpRequest :=
  { method := "POST", bodyLen := 200, readLen := 200
    bodyJson := .ok { alerts := [wAlertRestart] } }

/-- A GET request to the webhook path. -/
def wReqGet : Operator.HttpRequest :=
  { method := "GET", bodyLen := 0, readLen := 0
    bodyJson := .ok { alerts := [wAlertRestart] } }

/-- A POST whose body does not decode. -/
def wReqBad : Operator.HttpRequest :=
  { method := "POST", bodyLen := 10, readLen := 10
    bodyJson := .error "invalid character" }

/-- A POST whose body is one 2 MB JSON value: the decode must read the
whole body, far past the 1 MiB cap. -/
def wReqHuge : Operator.HttpRequest :=
  { method := "POST", bodyLen := 2000000, readLen := 2000000
    bodyJson := .ok { alerts := [wAlertRestart] } }

/-- A 2 MB POST whose first JSON value — a valid scenario batch — ends
after 100 bytes: the decoder stops there, under the cap. -/
def wReqPrefix : Operator.HttpRequest :=
  { method := "POST", bodyLen := 2000000, readLen := 100
    bodyJson := .ok { alerts := [wAlertRestart] } }

/-- The action the primary translator produces for `wAlertRestart`. -/
def wActRestart : RecoveryAction :=
  { action := "restart", pod := "nodejs-app-abc", ns := "default",
    app := "nodejs-app", alertName := "HighMemoryUsage" }

/-- A deployment with an unrelated pre-existing template key. -/
def wDepKeep : Deployment :=
  { name := "nodejs-app", replicas := some 2, templateAnn := [("keep", "v")] }

/-- `wClient` with `wDepKeep` as the only matching deployment. -/
def wClientKeep : K8sClient :=
  { wClient with listDeployments := fun _ _ => .ok [wDepKeep] }

/-- A deployment already at the `int32` maximum replica count. -/
def wDepMax : Deployment :=
  { name := "nodejs-app", replicas := some 2147483647, templateAnn := [] }

/-- `wClient` with `wDepMax` as the only matching deployment. -/
def wClientMax : K8sClient :=
  { wClient with listDeployments := fun _ _ => .ok [wDepMax] }

/-! Helper lemmas on the association-list operations. -/

/-- Looking up the key just written by `setEntry` yields the new value. -/
theorem lookup_setEntry_self {β : Type} (m : List (String × β)) (k : String)
    (v : β) : (setEntry m k v).lookup k = some v := by
  simp [setEntry, List.lookup]

/-- Filtering out one key leaves lookups of other keys unchanged. -/
theorem lookup_filter_ne {β : Type} (m : List (String × β)) (k k' : String)
    (h : k' ≠ k) :
    (m.filter (fun p => p.1 != k)).lookup k' = m.lookup k' := by
  induction m with
  | nil => rfl
  | cons p rest ih =>
      by_cases hp : p.1 = k
      · have h1 : (p.1 != k) = false := by simp [hp]
        have h2 : (k' == p.1) = false := by
          simp [hp]
          exact h
        simp [List.filter_cons, h1, List.lookup, h2, ih]
      · have h1 : (p.1 != k) = true := by simp [hp]
        cases hq : (k' == p.1) <;>
          simp [List.filter_cons, h1, List.lookup, hq, ih]

/-- `setEntry` leaves lookups of other keys unchanged. -/
theorem lookup_setEntry_ne {β : Type} (m : List (String × β)) (k k' : String)
    (v : β) (h : k' ≠ k) :
    (setEntry m k v).lookup k' = m.lookup k' := by
  have hk : (k' == k) = false := by simp [h]
  simp [setEntry, List.lookup, hk, lookup_filter_ne m k k' h]

/-! Claim theorems. -/

/-- C6: for every alert whose status is not `"firing"`, the webhook loop
body leaves the operator state untouched and issues no cluster call:
no translation, no cooldown bookkeeping, no mutation. -/
theorem non_firing_alert_is_noop (c : K8sClient) (now : Nat)
    (nowStr : String) (st : Operator.OperatorState) (alert : Alert)
    (h : alert.status ≠ "firing") :
    Operator.processAlert c now nowStr st alert = (st, []) := by
  simp [Operator.processAlert, h]

/-- C6 witness: the scenario alert with status `resolved` is a no-op. -/
theorem non_firing_alert_is_noop_witness :
    wAlertResolved.status ≠ "firing" ∧
    Operator.processAlert wClient 0 "T0" wState0 wAlertResolved =
      (wState0, []) :=
  ⟨by decide,
   non_firing_alert_is_noop wClient 0 "T0" wState0 wAlertResolved (by decide)⟩

/-- C3: the webhook answers 405 to non-POST requests touching nothing,
400 on decode failure touching nothing, and 200 `"OK"` on every decoded
batch after processing all alerts, whatever the per-alert outcomes. -/
theorem webhook_http_contract (c : K8sClient) (now : Nat) (nowStr : String)
    (st : Operator.OperatorState) (r : Operator.HttpRequest) :
    (r.method ≠ "POST" →
      Operator.handleWebhook c now nowStr st r =
        ({ status := 405, body := "Method not allowed" }, st, [])) ∧
    (∀ e, r.method = "POST" → Operator.decodeBody r = .error e →
      Operator.handleWebhook c now nowStr st r =
        ({ status := 400, body := e }, st, [])) ∧
    (∀ msg, r.method = "POST" → Operator.decodeBody r = .ok msg →
      Operator.handleWebhook c now nowStr st r =
        ({ status := 200, body := "OK" },
         (Operator.processAlerts c now nowStr st msg.alerts).1,
         (Operator.processAlerts c now nowStr st msg.alerts).2)) := by
  refine ⟨fun h => by simp [Operator.handleWebhook, h],
    fun e hm hd => ?_, fun msg hm hd => ?_⟩
  · simp [Operator.handleWebhook, hm, hd]
  · simp [Operator.handleWebhook, hm, hd]

/-- C3 witness: a GET gets 405; an undecodable POST gets 400; a decoded
POST whose only alert fails its mutation still gets 200 `"OK"`. -/
theorem webhook_http_contract_witness :
    wReqGet.method ≠ "POST" ∧
    Operator.handleWebhook wClient 0 "T0" wState0 wReqGet =
      ({ status := 405, body := "Method not allowed" }, wState0, []) ∧
    Operator.handleWebhook wClient 0 "T0" wState0 wReqBad =
      ({ status := 400, body := "invalid character" }, wState0, []) ∧
    (Operator.handleWebhook wClientFail 0 "T0" wState0 wReqRestart).1 =
      { status := 200, body := "OK" } :=
  ⟨by decide,
   (webhook_http_contract wClient 0 "T0" wState0 wReqGet).1 (by decide),
   (webhook_http_contract wClient 0 "T0" wState0 wReqBad).2.1
     "invalid character" rfl rfl,
   congrArg Prod.fst
     ((webhook_http_contract wClientFail 0 "T0" wState0 wReqRestart).2.2
       { alerts := [wAlertRestart] } rfl rfl)⟩

/-- C9 counterexample: a 2 MB POST whose first JSON value is a valid
100-byte scenario batch is not rejected — the decoder stops under the
cap, the limited reader never trips, the alert is processed (one
`deletePod`) and the answer is 200 `"OK"`, although the body exceeds
the 1 MiB ceiling. -/
theorem oversized_prefix_processed_counterexample :
    Operator.maxRequestBody < wReqPrefix.bodyLen ∧
    Operator.handleWebhook wClient 0 "T0" wState0 wReqPrefix =
      ({ status := 200, body := "OK" },
       { lastAction := [("default/nodejs-app", 0)],
         recoveryCount := [("restart", 1)] },
       [K8sCall.deletePod "default" "nodejs-app-abc"]) :=
  ⟨by decide, rfl⟩

/-- C9 amended: a POST whose decode must read more than 1 MiB from the
body — in particular any request whose first JSON value itself exceeds
the cap — fails the decode on the limited reader, is answered 400 as a
bad payload, and no alert in it is processed. -/
theorem oversized_body_rejected (c : K8sClient) (now : Nat)
    (nowStr : String) (st : Operator.OperatorState)
    (r : Operator.HttpRequest) (hm : r.method = "POST")
    (hlen : Operator.maxRequestBody < r.readLen) :
    Operator.handleWebhook c now nowStr st r =
      ({ status := 400, body := "http: request body too large" }, st, []) := by
  have hd : Operator.decodeBody r = .error "http: request body too large" := by
    simp [Operator.decodeBody, Nat.not_le.mpr hlen]
  simp [Operator.handleWebhook, hm, hd]

/-- C9 witness: a 2 MB POST whose single JSON value spans the whole
body is rejected with nothing processed. -/
theorem oversized_body_rejected_witness :
    Operator.maxRequestBody < wReqHuge.readLen ∧
    Operator.handleWebhook wClient 0 "T0" wState0 wReqHuge =
      ({ status := 400, body := "http: request body too large" },
       wState0, []) :=
  ⟨by decide,
   oversized_body_rejected wClient 0 "T0" wState0 wReqHuge rfl (by decide)⟩

/-- C8: a restart action with an empty pod identifier, and any action
whose kind is outside restart/redeploy/scale, make the executor return
an error with an empty call trace: no cluster call of any kind. -/
theorem executor_rejects_without_cluster_call (c : K8sClient)
    (nowStr : String) (action : RecoveryAction) :
    (action.action = "restart" → action.pod = "" →
      Operator.executeRecoveryAction c nowStr action =
        (.error "no pod name in alert labels for restart action", [])) ∧
    (action.action ≠ "restart" → action.action ≠ "redeploy" →
      action.action ≠ "scale" →
      Operator.executeRecoveryAction c nowStr action =
        (.error ("unknown recovery action: " ++ action.action), [])) := by
  constructor
  · intro h1 h2
    simp [Operator.executeRecoveryAction, h1, Operator.restartPod, h2]
  · intro h1 h2 h3
    simp [Operator.executeRecoveryAction, h1, h2, h3]

/-- C8 witness: a podless restart and an unknown `"reboot"` kind both
yield an error and an empty trace. -/
theorem executor_rejects_without_cluster_call_witness :
    Operator.executeRecoveryAction wClient "T0"
      { action := "restart", pod := "", ns := "default", app := "a",
        alertName := "x" } =
      (.error "no pod name in alert labels for restart action", []) ∧
    Operator.executeRecoveryAction wClient "T0"
      { action := "reboot", pod := "p", ns := "default", app := "a",
        alertName := "x" } =
      (.error "unknown recovery action: reboot", []) :=
  ⟨(executor_rejects_without_cluster_call wClient "T0"
      { action := "restart", pod := "", ns := "default", app := "a",
        alertName := "x" }).1 rfl rfl,
   (executor_rejects_without_cluster_call wClient "T0"
      { action := "reboot", pod := "p", ns := "default", app := "a",
        alertName := "x" }).2 (by decide) (by decide) (by decide)⟩

/-- C4 counterexample: on a firing restart alert with no `app` label the
primary (cooldown-variant) translator leaves `app` empty — it does not
fall back to `"unknown"` as the claim states. -/
theorem translator_app_fallback_counterexample :
    getLabel wAlertNoApp.labels "app" = "" ∧
    (Operator.parseRecoveryAction wAlertNoApp).map RecoveryAction.app =
      some "" ∧
    (Operator.parseRecoveryAction wAlertNoApp).map RecoveryAction.app ≠
      some "unknown" := by
  refine ⟨rfl, rfl, ?_⟩
  decide

/-- C4 amended: the primary translator returns no action when the
`recovery_action` label is absent or empty; otherwise it produces an
action whose namespace is the namespace label or `"default"` when
absent, whose pod is the pod label (empty when absent), whose app is
the raw app label (empty — not `"unknown"` — when absent), and whose
kind is the label value passed through unvalidated. -/
theorem parse_recovery_action_characterization (alert : Alert) :
    (getLabel alert.labels "recovery_action" = "" →
      Operator.parseRecoveryAction alert = none) ∧
    (getLabel alert.labels "recovery_action" ≠ "" →
      Operator.parseRecoveryAction alert =
        some { action := getLabel alert.labels "recovery_action"
               pod := getLabel alert.labels "pod"
               ns := if getLabel alert.labels "namespace" = "" then "default"
                 else getLabel alert.labels "namespace"
               app := getLabel alert.labels "app"
               alertName := getLabel alert.labels "alertname" }) := by
  constructor
  · intro h
    simp [Operator.parseRecoveryAction, h]
  · intro h
    simp [Operator.parseRecoveryAction, h]

/-- C4 witness: the scenario alert parses to the expected action, and an
alert without the action label parses to none. -/
theorem parse_recovery_action_characterization_witness :
    getLabel wAlertRestart.labels "recovery_action" ≠ "" ∧
    Operator.parseRecoveryAction wAlertRestart = some wActRestart ∧
    Operator.parseRecoveryAction wAlertResolved ≠ none :=
  ⟨by decide,
   ((parse_recovery_action_characterization wAlertRestart).2 (by decide)),
   fun hc => by
     have := (parse_recovery_action_characterization wAlertResolved).2
       (by decide)
     rw [this] at hc
     exact Option.noConfusion hc⟩

/-- C7: redeploy lists deployments by the `app=<app>` selector; zero
matches is an error after the single list call (no mutation); otherwise
the first listed deployment is updated with only its pod-template
restarted-at key set to the current timestamp, every other template
key unchanged. -/
theorem redeploy_contract (c : K8sClient) (nowStr : String)
    (action : RecoveryAction) (deps : List Deployment)
    (hlist : c.listDeployments action.ns ("app=" ++ action.app) = .ok deps) :
    (deps = [] →
      Operator.redeployDeployment c nowStr action =
        (.error ("no deployment with label " ++ ("app=" ++ action.app)
           ++ " in namespace " ++ action.ns),
         [K8sCall.listDeployments action.ns ("app=" ++ action.app)])) ∧
    (∀ dep rest, deps = dep :: rest →
      c.updateDeployment action.ns
          { dep with templateAnn := (setEntry dep.templateAnn
              "kubectl.kubernetes.io/restartedAt" nowStr) } = .ok () →
      Operator.redeployDeployment c nowStr action =
        (.ok (),
         [K8sCall.listDeployments action.ns ("app=" ++ action.app),
          K8sCall.updateDeployment action.ns
            { dep with templateAnn := (setEntry dep.templateAnn
                "kubectl.kubernetes.io/restartedAt" nowStr) }])) ∧
    (∀ dep : Deployment,
      (setEntry dep.templateAnn "kubectl.kubernetes.io/restartedAt"
          nowStr).lookup "kubectl.kubernetes.io/restartedAt" = some nowStr ∧
      ∀ k, k ≠ "kubectl.kubernetes.io/restartedAt" →
        (setEntry dep.templateAnn "kubectl.kubernetes.io/restartedAt"
            nowStr).lookup k = dep.templateAnn.lookup k) := by
  refine ⟨fun hnil => ?_, fun dep rest hcons hupd => ?_, fun dep => ?_⟩
  · subst hnil
    simp [Operator.redeployDeployment, hlist]
  · subst hcons
    simp [Operator.redeployDeployment, hlist, hupd]
  · exact ⟨lookup_setEntry_self dep.templateAnn _ nowStr,
      fun k hk => lookup_setEntry_ne dep.templateAnn _ k nowStr hk⟩

/-- C7 witness: with one matching deployment carrying an unrelated
template key, redeploy succeeds, updating only the restarted-at key;
with a failing list call only the list call appears in the trace. -/
theorem redeploy_contract_witness :
    Operator.redeployDeployment wClientKeep "T0" wActRestart =
      (.ok (),
       [K8sCall.listDeployments "default" "app=nodejs-app",
        K8sCall.updateDeployment "default"
          { name := "nodejs-app", replicas := some 2,
            templateAnn :=
              [("kubectl.kubernetes.io/restartedAt", "T0"),
               ("keep", "v")] }]) ∧
    Operator.redeployDeployment wClientFail "T0" wActRestart =
      (.error "failed to list deployments: boom",
       [K8sCall.listDeployments "default" "app=nodejs-app"]) :=
  ⟨(redeploy_contract wClientKeep "T0" wActRestart [wDepKeep] rfl).2.1
      wDepKeep [] rfl rfl,
   by rfl⟩

/-- C5 counterexample: the claim fails on the code in two ways. In the
`src/operator/main.go` variant, a matching deployment whose replica
count is absent (nil `Spec.Replicas`) makes `scaleDeployment`
dereference the nil pointer and panic after the list call — the absent
count is not treated as 1. And in the primary operator, a deployment
already at the `int32` maximum `2^31 - 1` gets a scale update carrying
the wrapped value `-2^31`, not `current + 1` — the count does not
increase monotonically without bound. -/
theorem scale_nil_replicas_counterexample :
    MainGo.scaleDeployment wClientNilReplicas
        { action := "scale", pod := "", ns := "default",
          app := "nodejs-app", reason := "x" } =
      (MainGo.GoOutcome.panicked,
       [K8sCall.listDeployments "default" "app=nodejs-app"]) ∧
    wDepNilReplicas.replicas = none ∧
    Operator.scaleDeployment wClientMax
        { action := "scale", pod := "", ns := "default",
          app := "nodejs-app", alertName := "x" } =
      (.ok (),
       [K8sCall.listDeployments "default" "app=nodejs-app",
        K8sCall.getScale "default" "nodejs-app",
        K8sCall.updateScale "default" "nodejs-app" (-2147483648)]) ∧
    wDepMax.replicas = some 2147483647 := by
  exact ⟨rfl, rfl, rfl, rfl⟩

/-- C5 amended: in the primary (combined-source) operator, a scale
action with at least one matching workload reads the first match's
desired count, treats an absent count as 1, and writes the `int32` sum
`current + 1` through the scale subresource; the operator enforces no
upper bound of its own, so the written count is exactly `current + 1`
for every current count below the `int32` maximum `2^31 - 1` (at the
maximum the sum wraps to `-2^31`). The main.go variant instead
dereferences the count without a nil check, so only its non-nil path
increments. -/
theorem scale_increments_current (c : K8sClient) (action : RecoveryAction)
    (dep : Deployment) (rest : List Deployment) (s : Int)
    (hlist : c.listDeployments action.ns ("app=" ++ action.app) =
      .ok (dep :: rest))
    (hget : c.getScale action.ns dep.name = .ok s)
    (hupd : c.updateScale action.ns dep.name
      (wrap32 (dep.replicas.getD 1 + 1)) = .ok ()) :
    Operator.scaleDeployment c action =
      (.ok (),
       [K8sCall.listDeployments action.ns ("app=" ++ action.app),
        K8sCall.getScale action.ns dep.name,
        K8sCall.updateScale action.ns dep.name
          (wrap32 (dep.replicas.getD 1 + 1))]) ∧
    (-2147483648 ≤ dep.replicas.getD 1 → dep.replicas.getD 1 < 2147483647 →
      wrap32 (dep.replicas.getD 1 + 1) = dep.replicas.getD 1 + 1) := by
  constructor
  · simp [Operator.scaleDeployment, hlist, hget, hupd]
  · intro h1 h2
    unfold wrap32
    omega

/-- C5 witness: with the matching deployment at 2 replicas, the scale
action writes 3 through the scale subresource. -/
theorem scale_increments_current_witness :
    wClient.listDeployments "default" "app=nodejs-app" = .ok [wDep] ∧
    Operator.scaleDeployment wClient
        { action := "scale", pod := "", ns := "default",
          app := "nodejs-app", alertName := "x" } =
      (.ok (),
       [K8sCall.listDeployments "default" "app=nodejs-app",
        K8sCall.getScale "default" "nodejs-app",
        K8sCall.updateScale "default" "nodejs-app" 3]) :=
  ⟨rfl,
   by
     have h := (scale_increments_current wClient
       { action := "scale", pod := "", ns := "default",
         app := "nodejs-app", alertName := "x" } wDep [] 2 rfl rfl rfl).1
     simpa [wrap32] using h⟩

/-- C10: in the `src/operator/main.go` translator and the second
combined-source variant, an absent `pod` label falls back to
`kubernetes_pod_name` and an absent `namespace` label falls back to
`kubernetes_namespace` before the documented `"default"` fallback. -/
theorem kubernetes_label_fallbacks (alert : Alert)
    (hra : getLabel alert.labels "recovery_action" ≠ "")
    (hpod : getLabel alert.labels "pod" = "")
    (hns : getLabel alert.labels "namespace" = "") :
    (MainGo.parseRecoveryAction alert).map (fun a => (a.pod, a.ns)) =
      some (getLabel alert.labels "kubernetes_pod_name",
        if getLabel alert.labels "kubernetes_namespace" = "" then "default"
        else getLabel alert.labels "kubernetes_namespace") ∧
    (OperatorB.parseRecoveryAction alert).map (fun a => (a.pod, a.ns)) =
      some (getLabel alert.labels "kubernetes_pod_name",
        if getLabel alert.labels "kubernetes_namespace" = "" then "default"
        else getLabel alert.labels "kubernetes_namespace") := by
  constructor
  · simp [MainGo.parseRecoveryAction, hra, hpod, hns]
  · simp [OperatorB.parseRecoveryAction, hra, hpod, hns]

/-- C10 witness: an alert carrying only `kubernetes_*` identifiers maps
to pod `pod-xyz` in namespace `prod` under both variant translators. -/
theorem kubernetes_label_fallbacks_witness :
    getLabel wAlertK8sLabels.labels "pod" = "" ∧
    (MainGo.parseRecoveryAction wAlertK8sLabels).map
        (fun a => (a.pod, a.ns)) = some ("pod-xyz", "prod") ∧
    (OperatorB.parseRecoveryAction wAlertK8sLabels).map
        (fun a => (a.pod, a.ns)) = some ("pod-xyz", "prod") :=
  ⟨rfl,
   (kubernetes_label_fallbacks wAlertK8sLabels (by decide) rfl rfl).1,
   (kubernetes_label_fallbacks wAlertK8sLabels (by decide) rfl rfl).2⟩

/-- C2: for a firing, translated, non-cooling alert, the cooldown entry
for the target key is written exactly when the executed mutation
succeeded: on failure the whole operator state (hence the cooldown map
entry) is unchanged, and on success the key maps to the current time;
in both cases the batch loop continues with the remaining alerts from
the resulting state. -/
theorem cooldown_recorded_iff_success (c : K8sClient) (now : Nat)
    (nowStr : String) (st : Operator.OperatorState) (alert : Alert)
    (action : RecoveryAction)
    (hfire : alert.status = "firing")
    (hparse : Operator.parseRecoveryAction alert = some action)
    (hcool : Operator.isCoolingDown st.lastAction now
      (action.ns ++ "/" ++ action.app) = false) :
    (isOkResult (Operator.executeRecoveryAction c nowStr action).1 = false →
      Operator.processAlert c now nowStr st alert =
        (st, (Operator.executeRecoveryAction c nowStr action).2)) ∧
    (isOkResult (Operator.executeRecoveryAction c nowStr action).1 = true →
      (Operator.processAlert c now nowStr st alert).1.lastAction.lookup
          (action.ns ++ "/" ++ action.app) = some now ∧
      (Operator.processAlert c now nowStr st alert).2 =
        (Operator.executeRecoveryAction c nowStr action).2) ∧
    (∀ rest, Operator.processAlerts c now nowStr st (alert :: rest) =
      ((Operator.processAlerts c now nowStr
          (Operator.processAlert c now nowStr st alert).1 rest).1,
       (Operator.processAlert c now nowStr st alert).2 ++
        (Operator.processAlerts c now nowStr
          (Operator.processAlert c now nowStr st alert).1 rest).2)) := by
  rcases hexec : Operator.executeRecoveryAction c nowStr action with ⟨res, calls⟩
  refine ⟨fun hfail => ?_, fun hok => ?_, fun rest => ?_⟩
  · cases res with
    | ok u => simp [isOkResult] at hfail
    | error e =>
        simp [Operator.processAlert, hfire, hparse, hcool, hexec]
  · cases res with
    | error e => simp [isOkResult] at hok
    | ok u =>
        constructor
        · simp [Operator.processAlert, hfire, hparse, hcool, hexec,
            Operator.recordCooldown, lookup_setEntry_self]
        · simp [Operator.processAlert, hfire, hparse, hcool, hexec]
  · simp [Operator.processAlerts]

/-- C2 witness: with a failing cluster the scenario alert leaves the
fresh state unchanged after its one failed delete call; with a working
cluster the cooldown key is stamped with the current time. -/
theorem cooldown_recorded_iff_success_witness :
    isOkResult (Operator.executeRecoveryAction wClientFail "T0"
      wActRestart).1 = false ∧
    Operator.processAlert wClientFail 0 "T0" wState0 wAlertRestart =
      (wState0, [K8sCall.deletePod "default" "nodejs-app-abc"]) ∧
    (Operator.processAlert wClient 0 "T0" wState0 wAlertRestart).1.lastAction.lookup
      "default/nodejs-app" = some 0 :=
  ⟨rfl,
   (cooldown_recorded_iff_success wClientFail 0 "T0" wState0 wAlertRestart
     wActRestart rfl rfl rfl).1 rfl,
   ((cooldown_recorded_iff_success wClient 0 "T0" wState0 wAlertRestart
     wActRestart rfl rfl rfl).2.1 rfl).1⟩

/-- C1: two firing restart alerts for the same (namespace, app) target,
delivered as two webhook requests within the 3-minute cooldown window
with the first pod deletion succeeding, produce exactly one `deletePod`
call in total: the second delivery's trace is empty because the
cooldown check skips it before any mutation. -/
theorem cooldown_suppresses_second_restart
    (c : K8sClient) (t1 t2 : Nat) (s1 s2 : String)
    (st0 : Operator.OperatorState) (r1 r2 : Operator.HttpRequest)
    (a1 a2 : Alert) (act1 act2 : RecoveryAction)
    (hm1 : r1.method = "POST") (hl1 : r1.readLen ≤ Operator.maxRequestBody)
    (hb1 : r1.bodyJson = .ok { alerts := [a1] })
    (hm2 : r2.method = "POST") (hl2 : r2.readLen ≤ Operator.maxRequestBody)
    (hb2 : r2.bodyJson = .ok { alerts := [a2] })
    (hf1 : a1.status = "firing") (hf2 : a2.status = "firing")
    (hp1 : Operator.parseRecoveryAction a1 = some act1)
    (hp2 : Operator.parseRecoveryAction a2 = some act2)
    (ha1 : act1.action = "restart") (_ha2 : act2.action = "restart")
    (hns : act2.ns = act1.ns) (happ : act2.app = act1.app)
    (hcool0 : Operator.isCoolingDown st0.lastAction t1
      (act1.ns ++ "/" ++ act1.app) = false)
    (hpod : act1.pod ≠ "")
    (hdel : c.deletePod act1.ns act1.pod = .ok ())
    (hwin : t2 - t1 < Operator.cooldownTime) :
    countDeletePod ((Operator.handleWebhook c t1 s1 st0 r1).2.2 ++
      (Operator.handleWebhook c t2 s2
        (Operator.handleWebhook c t1 s1 st0 r1).2.1 r2).2.2) = 1 ∧
    (Operator.handleWebhook c t2 s2
      (Operator.handleWebhook c t1 s1 st0 r1).2.1 r2).2.2 = [] := by
  have hd1 : Operator.decodeBody r1 = .ok { alerts := [a1] } := by
    simp [Operator.decodeBody, hl1, hb1]
  have hd2 : Operator.decodeBody r2 = .ok { alerts := [a2] } := by
    simp [Operator.decodeBody, hl2, hb2]
  have hexec1 : Operator.executeRecoveryAction c s1 act1 =
      (.ok (), [K8sCall.deletePod act1.ns act1.pod]) := by
    simp [Operator.executeRecoveryAction, ha1, Operator.restartPod, hpod,
      hdel]
  have hpa1 : Operator.processAlert c t1 s1 st0 a1 =
      ({ lastAction := Operator.recordCooldown st0.lastAction t1
           (act1.ns ++ "/" ++ act1.app)
         recoveryCount := Operator.recordRecovery st0.recoveryCount
           act1.action },
       [K8sCall.deletePod act1.ns act1.pod]) := by
    simp [Operator.processAlert, hf1, hp1, hcool0, hexec1]
  have hw1 : Operator.handleWebhook c t1 s1 st0 r1 =
      ({ status := 200, body := "OK" },
       { lastAction := Operator.recordCooldown st0.lastAction t1
           (act1.ns ++ "/" ++ act1.app)
         recoveryCount := Operator.recordRecovery st0.recoveryCount
           act1.action },
       [K8sCall.deletePod act1.ns act1.pod]) := by
    simp [Operator.handleWebhook, hm1, hd1, Operator.processAlerts, hpa1]
  have hcool2 : Operator.isCoolingDown
      (Operator.recordCooldown st0.lastAction t1
        (act1.ns ++ "/" ++ act1.app)) t2
      (act2.ns ++ "/" ++ act2.app) = true := by
    rw [hns, happ]
    simp [Operator.isCoolingDown, Operator.recordCooldown,
      lookup_setEntry_self, hwin]
  have hpa2 : Operator.processAlert c t2 s2
      { lastAction := Operator.recordCooldown st0.lastAction t1
          (act1.ns ++ "/" ++ act1.app)
        recoveryCount := Operator.recordRecovery st0.recoveryCount
          act1.action } a2 =
      ({ lastAction := Operator.recordCooldown st0.lastAction t1
           (act1.ns ++ "/" ++ act1.app)
         recoveryCount := Operator.recordRecovery st0.recoveryCount
           act1.action }, []) := by
    simp [Operator.processAlert, hf2, hp2, hcool2]
  have hw2 : Operator.handleWebhook c t2 s2
      { lastAction := Operator.recordCooldown st0.lastAction t1
          (act1.ns ++ "/" ++ act1.app)
        recoveryCount := Operator.recordRecovery st0.recoveryCount
          act1.action } r2 =
      ({ status := 200, body := "OK" },
       { lastAction := Operator.recordCooldown st0.lastAction t1
           (act1.ns ++ "/" ++ act1.app)
         recoveryCount := Operator.recordRecovery st0.recoveryCount
           act1.action }, []) := by
    simp [Operator.handleWebhook, hm2, hd2, Operator.processAlerts, hpa2]
  rw [hw1]
  simp only []
  rw [hw2]
  simp [countDeletePod]

/-- C1 witness: the scenario alert delivered twice, 100 seconds apart,
against a working cluster: one `deletePod` in total, none from the
second delivery. -/
theorem cooldown_suppresses_second_restart_witness :
    (100 : Nat) - 0 < Operator.cooldownTime ∧
    countDeletePod ((Operator.handleWebhook wClient 0 "T0" wState0
        wReqRestart).2.2 ++
      (Operator.handleWebhook wClient 100 "T1"
        (Operator.handleWebhook wClient 0 "T0" wState0 wReqRestart).2.1
        wReqRestart).2.2) = 1 ∧
    (Operator.handleWebhook wClient 100 "T1"
      (Operator.handleWebhook wClient 0 "T0" wState0 wReqRestart).2.1
      wReqRestart).2.2 = [] :=
  ⟨by decide,
   (cooldown_suppresses_second_restart wClient 0 100 "T0" "T1" wState0
     wReqRestart wReqRestart wAlertRestart wAlertRestart wActRestart
     wActRestart rfl (by decide) rfl rfl (by decide) rfl rfl rfl rfl rfl
     rfl rfl rfl rfl rfl (by decide) rfl (by decide)).1,
   (cooldown_suppresses_second_restart wClient 0 100 "T0" "T1" wState0
     wReqRestart wReqRestart wAlertRestart wAlertRestart wActRestart
     wActRestart rfl (by decide) rfl rfl (by decide) rfl rfl rfl rfl rfl
     rfl rfl rfl rfl rfl (by decide) rfl (by decide)).2⟩
